import Mathlib

/-!
Shallow embedding of the sidecar process supervisor implemented in
src/src-tauri/src/lib.rs, together with proofs of the behavioral claims
about it.

The embedding models:
  * SidecarState (the shared pid/port record);
  * the Output Relay's per-event handler (the closure spawned inside
    start_bun_sidecar_internal), as an ordered list of primitive actions
    so that ordering claims can be stated;
  * stop_bun_sidecar, kill_sidecar_sync, start_bun_sidecar_internal, with
    external effects (the kill command's execution result, the spawn
    result, the filesystem) passed in as explicit parameters;
  * the readiness-probe loop from run()'s setup hook.

Rust string operations used by the source (str::trim, str::parse with
target type u16, str::starts_with, byte slicing at index 5) are modelled
down to character level so that the port-announcement parsing claims can
be settled exactly.
-/

/-- The shared supervisor record from lib.rs (struct SidecarState): the
child's pid and its announced port, each optional.  Pids and ports are
modelled as Nat; ports produced by the parser are at most 65535. -/
structure SidecarState where
  pid : Option Nat
  port : Option Nat
  deriving DecidableEq, Repr

/-- Events emitted to the frontend via app.emit in lib.rs.  The exited
event carries the child's exit code (None for signal-killed children),
matching the payload of the bun-sidecar-exited emit. -/
inductive Event where
  | output (line : String)
  | errLine (line : String)
  | exited (code : Option Int)
  | ready (port : Nat)
  | sidecarError (msg : String)
  deriving DecidableEq, Repr

/-- The tauri_plugin_shell CommandEvent variants consumed by the relay
loop in start_bun_sidecar_internal. -/
inductive CommandEvent where
  | stdout (line : String)
  | stderr (line : String)
  | terminated (code : Option Int)
  | other
  deriving DecidableEq, Repr

/-- Primitive effects performed by the supervisor, in program order.
State-changing actions (writePid, setPort, clearPid, clearState) model
the critical sections on the SidecarState mutex; each such action is a
single lock-protected section in the source.  signal p s models running
the kill command with signal number s against pid p; sleepMs models a
sleep; emit models an app.emit call. -/
inductive Act where
  | createDir (path : String)
  | spawnChild (pid : Nat)
  | writePid (pid : Nat)
  | spawnRelay
  | setPort (port : Nat)
  | clearPid
  | clearState
  | signal (pid : Nat) (signum : Nat)
  | sleepMs (ms : Nat)
  | emit (e : Event)
  deriving DecidableEq, Repr

/-- Effect of one action on the shared state.  Non-state actions leave it
unchanged. -/
def applyAct (st : SidecarState) : Act → SidecarState
  | Act.writePid p => { st with pid := some p }
  | Act.setPort p => { st with port := some p }
  | Act.clearPid => { st with pid := none }
  | Act.clearState => { pid := none, port := none }
  | _ => st

/-- Effect of a sequence of actions, executed left to right. -/
def applyActs (st : SidecarState) (as : List Act) : SidecarState :=
  as.foldl applyAct st

/-- The events emitted by a sequence of actions, in order. -/
def emittedEvents (as : List Act) : List Event :=
  as.filterMap fun a =>
    match a with
    | Act.emit e => some e
    | _ => none

/-- Rust char::is_whitespace (the Unicode White_Space property), used by
str::trim in the PORT= line handler. -/
def isRustWhitespace (c : Char) : Bool :=
  decide ((9 ≤ c.toNat ∧ c.toNat ≤ 13) ∨ c.toNat = 32 ∨ c.toNat = 133 ∨
    c.toNat = 160 ∨ c.toNat = 5760 ∨ (8192 ≤ c.toNat ∧ c.toNat ≤ 8202) ∨
    c.toNat = 8232 ∨ c.toNat = 8233 ∨ c.toNat = 8239 ∨ c.toNat = 8287 ∨
    c.toNat = 12288)

/-- Rust str::trim: strip leading and trailing whitespace. -/
def rustTrim (s : String) : String :=
  String.mk (((s.data.dropWhile isRustWhitespace).reverse.dropWhile
    isRustWhitespace).reverse)

/-- ASCII decimal digit test, as used by Rust's integer parser. -/
def isAsciiDigit (c : Char) : Bool :=
  decide (48 ≤ c.toNat ∧ c.toNat ≤ 57)

/-- Numeric value of an ASCII digit character. -/
def charDigitVal (c : Nat) : Nat := c - 48

/-- Rust str::parse with target type u16 (u16::from_str): an optional
leading plus sign, then one or more ASCII decimal digits and nothing
else, with the value at most 65535; anything else is a parse error.
Rust's checked accumulation errors exactly when the final value would
exceed u16::MAX, so computing in Nat and comparing at the end yields the
same Option outcome. -/
def rustParseU16 (s : String) : Option Nat :=
  let body := if s.data.head? = some '+' then s.data.tail else s.data
  if body = [] then none
  else if body.all isAsciiDigit then
    let v := body.foldl (fun acc c => acc * 10 + charDigitVal c.toNat) 0
    if v ≤ 65535 then some v else none
  else none

/-- The characters of the literal PORT= marker tested by
line.starts_with in the relay. -/
def portMarker : List Char := ['P', 'O', 'R', 'T', '=']

/-- Rust line.starts_with with the PORT= literal. -/
def startsWithPORT (line : String) : Bool :=
  portMarker.isPrefixOf line.data

/-- Rust line[5..]: for lines that start with the five ASCII bytes of
PORT=, byte index 5 is a character boundary, so the byte slice equals
dropping the first five characters. -/
def dropPORT (line : String) : String :=
  String.mk (line.data.drop 5)

/-- The relay closure spawned inside start_bun_sidecar_internal, per
received CommandEvent, as its ordered list of actions.  Stdout: when the
line starts with PORT= and the rest, trimmed, parses as a u16, the port
is stored (one critical section) and the line is then emitted as an
ordinary output event; every stdout line is emitted exactly once.
Stderr lines are emitted as error events.  On termination the source
emits the bun-sidecar-exited event first and clears pid and port (one
critical section) second. -/
def relayHandlerActions : CommandEvent → List Act
  | CommandEvent.stdout line =>
    (if startsWithPORT line then
      match rustParseU16 (rustTrim (dropPORT line)) with
      | some p => [Act.setPort p]
      | none => []
    else []) ++ [Act.emit (Event.output line)]
  | CommandEvent.stderr line => [Act.emit (Event.errLine line)]
  | CommandEvent.terminated code =>
    [Act.emit (Event.exited code), Act.clearState]
  | CommandEvent.other => []

/-- All actions the relay performs for a whole stream of events. -/
def relayActs : List CommandEvent → List Act
  | [] => []
  | e :: rest => relayHandlerActions e ++ relayActs rest

/-- Result of running the kill (or taskkill) command, passed in as an
explicit parameter: Except.ok when the command was executed (whatever
the signalled process did), Except.error when the command itself could
not be run (the .output() call failed). -/
abbrev KillExec := Except String Unit

/-- stop_bun_sidecar from lib.rs.  Reads the pid; with no pid it
succeeds trivially.  With a pid it runs kill -9 (modelled by the
killRes parameter); if that execution fails the error is returned with
the state untouched, otherwise only the pid is cleared and a success
message naming the pid is returned. -/
def stop_bun_sidecar (st : SidecarState) (killRes : KillExec) :
    Except String String × SidecarState :=
  match st.pid with
  | some pid =>
    match killRes with
    | Except.error e => (Except.error ("Failed to kill sidecar: " ++ e), st)
    | Except.ok _ =>
      (Except.ok ("Sidecar stopped (PID: " ++ toString pid ++ ")"),
        { st with pid := none })
  | none => (Except.ok ("No sidecar running"), st)

/-- kill_sidecar_sync from lib.rs (the Unix path, invoked from the
RunEvent.Exit handler).  With a recorded pid: kill -15 (SIGTERM), sleep
100 ms, then kill -9 (SIGKILL) unconditionally — both kill invocations
ignore their results — then clear pid and port.  With no pid recorded
it does nothing. -/
def kill_sidecar_sync (st : SidecarState) : List Act × SidecarState :=
  match st.pid with
  | some pid =>
    ([Act.signal pid 15, Act.sleepMs 100, Act.signal pid 9],
      { pid := none, port := none })
  | none => ([], st)

/-- Path join, modelling PathBuf::join (with / as separator, as on the
Unix targets of the source). -/
def joinPath (a b : String) : String := a ++ "/" ++ b

/-- The fixed default data directory under the user's home directory,
home.join("Documents").join("BudgetForFun") in the source.  A usable
home directory is assumed (the source surfaces a distinct error when
dirs::home_dir() is unavailable, a case outside the claims). -/
def defaultDataDir (home : String) : String :=
  joinPath (joinPath home ("Documents")) ("BudgetForFun")

/-- The data-directory resolution at the top of
start_bun_sidecar_internal: a supplied non-empty value wins, anything
else resolves to the default under the home directory. -/
def resolveEffectiveDataDir (home : String) (data_dir : Option String) :
    String :=
  match data_dir with
  | some dir => if dir = "" then defaultDataDir home else dir
  | none => defaultDataDir home

/-- Abstract view of the filesystem for the directory-creation phase:
which paths already exist, and whether create_dir_all on a path would
succeed. -/
structure DirEnv where
  present : String → Bool
  createOk : String → Bool

/-- One exists-then-create_dir_all step from
start_bun_sidecar_internal: if the path exists nothing happens;
otherwise create_dir_all either creates it or fails the launch with a
directory-creation error naming the directory. -/
def ensureDir (env : DirEnv) (path : String) (label : String) :
    Except String (List Act) :=
  if env.present path then Except.ok []
  else if env.createOk path then Except.ok [Act.createDir path]
  else Except.error ("Failed to create " ++ label ++ " directory")

/-- start_bun_sidecar_internal from lib.rs, with its external effects
made explicit: env models the filesystem and spawnRes the outcome of
sidecar_command.spawn() (the pid on success).  It resolves the
effective data directory, ensures it and its entities and months
subdirectories exist (aborting with the corresponding error on a
creation failure, before any spawn), spawns the child, records the pid
into the shared state, and only then spawns the relay task.  The
returned action list is the program-order trace of effects; the relay
task's own actions are not part of it (they run concurrently after
spawnRelay).  The dev/production launch-mode branch only changes the
spawned command's arguments, which no claim depends on, so it is not
modelled. -/
def start_bun_sidecar_internal (home : String) (data_dir : Option String)
    (env : DirEnv) (spawnRes : Except String Nat) (st : SidecarState) :
    List Act × Except String SidecarState :=
  let eff := resolveEffectiveDataDir home data_dir
  match ensureDir env eff ("data") with
  | Except.error e => ([], Except.error e)
  | Except.ok s1 =>
    match ensureDir env (joinPath eff ("entities")) ("entities") with
    | Except.error e => (s1, Except.error e)
    | Except.ok s2 =>
      match ensureDir env (joinPath eff ("months")) ("months") with
      | Except.error e => (s1 ++ s2, Except.error e)
      | Except.ok s3 =>
        match spawnRes with
        | Except.error e =>
          (s1 ++ s2 ++ s3, Except.error ("Failed to spawn sidecar: " ++ e))
        | Except.ok pid =>
          (s1 ++ s2 ++ s3 ++
            [Act.spawnChild pid, Act.writePid pid, Act.spawnRelay],
            Except.ok { st with pid := some pid })

/-- What one iteration of the readiness-probe loop in run()'s setup hook
observes: the port field read from the shared state, and, when a port
is present, whether the GET to /api/health returned a 2xx status
(healthOk is ignored when port is none). -/
structure ProbeObs where
  port : Option Nat
  healthOk : Bool
  deriving DecidableEq, Repr

/-- Terminal outcome of the probe loop: ready with the announced port,
health-check timeout, or port-capture timeout.  Each carries the number
of attempts consumed and the total milliseconds slept. -/
inductive ProbeResult where
  | ready (port : Nat) (attemptsUsed : Nat) (sleptMs : Nat)
  | healthTimeout (attemptsUsed : Nat) (sleptMs : Nat)
  | portTimeout (attemptsUsed : Nat) (sleptMs : Nat)
  deriving DecidableEq, Repr

/-- Attempts consumed by a probe outcome. -/
def ProbeResult.attemptsUsed : ProbeResult → Nat
  | ProbeResult.ready _ a _ => a
  | ProbeResult.healthTimeout a _ => a
  | ProbeResult.portTimeout a _ => a

/-- Total milliseconds slept before the probe outcome. -/
def ProbeResult.slept : ProbeResult → Nat
  | ProbeResult.ready _ _ s => s
  | ProbeResult.healthTimeout _ s => s
  | ProbeResult.portTimeout _ s => s

/-- Whether the probe outcome is one of the two timeout outcomes. -/
def ProbeResult.isTimeout : ProbeResult → Bool
  | ProbeResult.ready _ _ _ => false
  | ProbeResult.healthTimeout _ _ => true
  | ProbeResult.portTimeout _ _ => true

/-- The event the setup hook emits for each probe outcome: sidecar-ready
with the port on success, a sidecar-error event (to the listener, not a
raised error) on either timeout, with the two diagnostic messages from
the source. -/
def probeEmittedEvent : ProbeResult → Event
  | ProbeResult.ready p _ _ => Event.ready p
  | ProbeResult.healthTimeout _ _ =>
    Event.sidecarError ("Backend failed to respond to health check")
  | ProbeResult.portTimeout _ _ =>
    Event.sidecarError ("Backend failed to report port")

/-- The probe loop from run()'s setup hook, literally: attempts counts
completed attempts, maxAttempts is the budget (30 at the call site),
sleptMs accumulates the 200 ms sleeps taken between attempts.  Each
iteration increments the attempt count, reads the port (obs indexed by
the attempt number, starting at 1), and either succeeds, times out when
the budget is reached, or sleeps 200 ms and retries. -/
def probeLoop (obs : Nat → ProbeObs) (maxAttempts : Nat) :
    Nat → Nat → ProbeResult
  | attempts, sleptMs =>
    match (obs (attempts + 1)).port with
    | some p =>
      if (obs (attempts + 1)).healthOk then
        ProbeResult.ready p (attempts + 1) sleptMs
      else if h : maxAttempts ≤ attempts + 1 then
        ProbeResult.healthTimeout (attempts + 1) sleptMs
      else probeLoop obs maxAttempts (attempts + 1) (sleptMs + 200)
    | none =>
      if h : maxAttempts ≤ attempts + 1 then
        ProbeResult.portTimeout (attempts + 1) sleptMs
      else probeLoop obs maxAttempts (attempts + 1) (sleptMs + 200)
termination_by attempts => maxAttempts - attempts
decreasing_by all_goals omega

/-- Fuel-indexed reformulation of the probe loop, used to compute: fuel
stands for maxAttempts - attempts, so the budget check attempts + 1 at
or above maxAttempts becomes fuel reaching 1.  The fuel-zero equation is
unreachable from probe (its budget is positive). -/
def probeGo (obs : Nat → ProbeObs) : Nat → Nat → Nat → ProbeResult
  | 0, attempts, sleptMs => ProbeResult.portTimeout attempts sleptMs
  | Nat.succ f, attempts, sleptMs =>
    match (obs (attempts + 1)).port with
    | some p =>
      if (obs (attempts + 1)).healthOk then
        ProbeResult.ready p (attempts + 1) sleptMs
      else if f = 0 then ProbeResult.healthTimeout (attempts + 1) sleptMs
      else probeGo obs f (attempts + 1) (sleptMs + 200)
    | none =>
      if f = 0 then ProbeResult.portTimeout (attempts + 1) sleptMs
      else probeGo obs f (attempts + 1) (sleptMs + 200)

/-- The probe as instantiated in run(): budget of 30 attempts, counters
starting at zero. -/
def probe (obs : Nat → ProbeObs) : ProbeResult :=
  probeLoop obs 30 0 0

/-- An attempt observation that does not end the probe: the port is not
announced yet, or the health endpoint did not answer with success. -/
def notReady (o : ProbeObs) : Prop := o.port = none ∨ o.healthOk = false

instance (o : ProbeObs) : Decidable (notReady o) := by
  unfold notReady
  infer_instance

/-- The probe loop coincides with its fuel-indexed reformulation when
the fuel equals the remaining budget. -/
theorem probeLoop_eq_probeGo (obs : Nat → ProbeObs) (maxAttempts : Nat) :
    ∀ fuel attempts sleptMs, maxAttempts - attempts = fuel →
      attempts < maxAttempts →
      probeLoop obs maxAttempts attempts sleptMs =
        probeGo obs fuel attempts sleptMs := by
  intro fuel
  induction fuel with
  | zero => intro a s h1 h2; omega
  | succ f ih =>
    intro attempts sleptMs h1 h2
    rw [probeLoop, probeGo]
    cases hp : (obs (attempts + 1)).port with
    | some p =>
      cases hh : (obs (attempts + 1)).healthOk with
      | true => simp [hh]
      | false =>
        by_cases hf : f = 0
        · simp [hh, hf, show maxAttempts ≤ attempts + 1 by omega]
        · simp only [hh, Bool.false_eq_true, if_false, hf, ite_false,
            dif_neg (show ¬maxAttempts ≤ attempts + 1 by omega)]
          exact ih (attempts + 1) (sleptMs + 200) (by omega) (by omega)
    | none =>
      by_cases hf : f = 0
      · simp [hf, show maxAttempts ≤ attempts + 1 by omega]
      · simp only [hf, ite_false,
          dif_neg (show ¬maxAttempts ≤ attempts + 1 by omega)]
        exact ih (attempts + 1) (sleptMs + 200) (by omega) (by omega)

/-- The run() probe instance computes as the fuel version with fuel 30. -/
theorem probe_eq (obs : Nat → ProbeObs) : probe obs = probeGo obs 30 0 0 :=
  probeLoop_eq_probeGo obs 30 30 0 0 rfl (by omega)

/-- Bounds on any probe execution: at least one attempt and at most
fuel further ones are consumed, and exactly one 200 ms sleep was taken
between consecutive attempts. -/
theorem probeGo_bounds (obs : Nat → ProbeObs) :
    ∀ fuel attempts sleptMs, 1 ≤ fuel →
      attempts + 1 ≤ (probeGo obs fuel attempts sleptMs).attemptsUsed ∧
      (probeGo obs fuel attempts sleptMs).attemptsUsed ≤ attempts + fuel ∧
      (probeGo obs fuel attempts sleptMs).slept =
        sleptMs +
          200 * ((probeGo obs fuel attempts sleptMs).attemptsUsed -
            (attempts + 1)) := by
  intro fuel
  induction fuel with
  | zero => intro a s h; omega
  | succ f ih =>
    intro attempts sleptMs _
    rw [probeGo]
    cases hp : (obs (attempts + 1)).port with
    | some p =>
      cases hh : (obs (attempts + 1)).healthOk with
      | true =>
        simp [hh, ProbeResult.attemptsUsed, ProbeResult.slept]
      | false =>
        by_cases hf : f = 0
        · simp [hh, hf, ProbeResult.attemptsUsed, ProbeResult.slept]
        · obtain ⟨ih1, ih2, ih3⟩ :=
            ih (attempts + 1) (sleptMs + 200) (by omega)
          simp only [hh, Bool.false_eq_true, if_false, hf, ite_false]
          refine ⟨by omega, by omega, by omega⟩
    | none =>
      by_cases hf : f = 0
      · simp [hf, ProbeResult.attemptsUsed, ProbeResult.slept]
      · obtain ⟨ih1, ih2, ih3⟩ :=
          ih (attempts + 1) (sleptMs + 200) (by omega)
        simp only [hf, ite_false]
        refine ⟨by omega, by omega, by omega⟩

/-- If some attempt k within the remaining budget observes a port with
a healthy response, and every attempt before it observed no port or a
failing response, the probe ends ready at attempt k with that port. -/
theorem probeGo_ready (obs : Nat → ProbeObs) :
    ∀ fuel attempts sleptMs k p, attempts < k → k ≤ attempts + fuel →
      (obs k).port = some p → (obs k).healthOk = true →
      (∀ j, attempts < j → j < k → notReady (obs j)) →
      probeGo obs fuel attempts sleptMs =
        ProbeResult.ready p k (sleptMs + 200 * (k - (attempts + 1))) := by
  intro fuel
  induction fuel with
  | zero => intro a s k p h1 h2 _ _ _; omega
  | succ f ih =>
    intro attempts sleptMs k p h1 h2 hport hhealth hbefore
    rw [probeGo]
    rcases Nat.lt_or_ge (attempts + 1) k with hlt | hge
    · have hf : f ≠ 0 := by omega
      have hrec := ih (attempts + 1) (sleptMs + 200) k p (by omega)
        (by omega) hport hhealth (fun j ha hb => hbefore j (by omega) hb)
      rcases hbefore (attempts + 1) (by omega) hlt with hn | hfl
      · simp only [hn, hf, ite_false]
        rw [hrec]
        congr 1
        omega
      · cases hp : (obs (attempts + 1)).port with
        | some q =>
          simp only [hfl, Bool.false_eq_true, if_false, hf, ite_false]
          rw [hrec]
          congr 1
          omega
        | none =>
          simp only [hf, ite_false]
          rw [hrec]
          congr 1
          omega
    · have hk : k = attempts + 1 := by omega
      subst hk
      simp [hport, hhealth]

/-- Claim C4: the probe loop always terminates after at most 30
attempts, taking one 200 ms sleep between consecutive attempts (so the
total slept time is 200 ms times one less than the attempts used), and
when the budget is exhausted the outcome is reported as a sidecar-error
event to the listener; being a total function into ProbeResult, the
loop never raises an error or crashes. -/
theorem probe_terminates_bounded (obs : Nat → ProbeObs) :
    1 ≤ (probe obs).attemptsUsed ∧
    (probe obs).attemptsUsed ≤ 30 ∧
    (probe obs).slept = 200 * ((probe obs).attemptsUsed - 1) ∧
    ((probe obs).isTimeout = true →
      ∃ msg, probeEmittedEvent (probe obs) = Event.sidecarError msg) := by
  rw [probe_eq obs]
  obtain ⟨h1, h2, h3⟩ := probeGo_bounds obs 30 0 0 (by omega)
  refine ⟨by omega, by omega, by omega, ?_⟩
  intro ht
  cases hr : probeGo obs 30 0 0 with
  | ready p a s => rw [hr] at ht; simp [ProbeResult.isTimeout] at ht
  | healthTimeout a s => exact ⟨_, rfl⟩
  | portTimeout a s => exact ⟨_, rfl⟩

/-- Observation sequence with no port ever announced, used as the C4
witness input. -/
def obsNeverPort : Nat → ProbeObs :=
  fun _ => { port := none, healthOk := false }

/-- Witness for C4 at a concrete observation sequence that exhausts the
budget. -/
theorem probe_terminates_bounded_witness :
    (probe obsNeverPort).attemptsUsed ≤ 30 ∧
    ∃ msg, probeEmittedEvent (probe obsNeverPort) = Event.sidecarError msg := by
  obtain ⟨h1, h2, h3, h4⟩ := probe_terminates_bounded obsNeverPort
  refine ⟨h2, h4 ?_⟩
  rw [probe_eq obsNeverPort]
  decide

/-- Claim C5: if some attempt k within the 30-attempt budget reads a
port p from the shared state and the health endpoint answers with
success, while every earlier attempt saw no port or a non-success
response, the probe terminates ready with p (the sidecar-ready event
then carries p, by probeEmittedEvent). -/
theorem probe_ready_when_healthy (obs : Nat → ProbeObs) (k p : Nat)
    (hk1 : 1 ≤ k) (hk30 : k ≤ 30)
    (hport : (obs k).port = some p) (hhealth : (obs k).healthOk = true)
    (hbefore : ∀ j, j < k → 1 ≤ j → notReady (obs j)) :
    probe obs = ProbeResult.ready p k (200 * (k - 1)) := by
  rw [probe_eq obs]
  rw [probeGo_ready obs 30 0 0 k p (by omega) (by omega) hport hhealth
    (fun j h1 h2 => hbefore j h2 (by omega))]
  congr 1
  omega

/-- Observation sequence for the C5 witness: attempts 1 and 2 see no
port, attempt 3 sees port 8080 with a healthy response. -/
def obsReadyAt3 : Nat → ProbeObs := fun n =>
  if n = 3 then { port := some 8080, healthOk := true }
  else { port := none, healthOk := false }

/-- Witness for C5 at a concrete observation sequence. -/
theorem probe_ready_when_healthy_witness :
    probe obsReadyAt3 = ProbeResult.ready 8080 3 400 := by
  have h := probe_ready_when_healthy obsReadyAt3 3 8080 (by decide)
    (by decide) (by decide) (by decide) (by decide)
  simpa using h


/-- Lists whose members all fail the predicate are left whole by
dropWhile. -/
theorem dropWhile_eq_self_of_all (w : Char → Bool) (l : List Char)
    (h : ∀ c ∈ l, w c = false) : l.dropWhile w = l := by
  cases l with
  | nil => rfl
  | cons c t => simp [List.dropWhile_cons, h c (List.mem_cons_self c t)]

/-- Trimming a string none of whose characters is whitespace is the
identity. -/
theorem rustTrim_eq_self (s : String)
    (h : ∀ c ∈ s.data, isRustWhitespace c = false) : rustTrim s = s := by
  unfold rustTrim
  rw [dropWhile_eq_self_of_all _ _ h]
  rw [dropWhile_eq_self_of_all _ _ (fun c hc => h c (List.mem_reverse.mp hc))]
  rw [List.reverse_reverse]

/-- ASCII digits are not whitespace. -/
theorem isAsciiDigit_not_ws (c : Char) (h : isAsciiDigit c = true) :
    isRustWhitespace c = false := by
  unfold isAsciiDigit at h
  unfold isRustWhitespace
  simp only [decide_eq_true_eq] at h
  simp only [decide_eq_false_iff_not]
  omega

/-- A string Rust parses as a u16 contains no whitespace (it is a plus
sign and digits, or digits only). -/
theorem parseable_no_ws (s : String) (n : Nat)
    (h : rustParseU16 s = some n) :
    ∀ c ∈ s.data, isRustWhitespace c = false := by
  intro c hc
  simp only [rustParseU16] at h
  by_cases hplus : s.data.head? = some '+'
  · rw [if_pos hplus] at h
    by_cases he : s.data.tail = []
    · rw [if_pos he] at h; cases h
    · rw [if_neg he] at h
      by_cases hall : s.data.tail.all isAsciiDigit = true
      · rcases hd : s.data with _ | ⟨c0, cs⟩
        · rw [hd] at hc; cases hc
        · rw [hd] at hplus hc hall
          simp only [List.head?_cons, Option.some.injEq] at hplus
          simp only [List.tail_cons, List.all_eq_true] at hall
          rcases List.mem_cons.mp hc with h0 | hmem
          · rw [h0, hplus]; decide
          · exact isAsciiDigit_not_ws c (hall c hmem)
      · rw [if_neg hall] at h; cases h
  · rw [if_neg hplus] at h
    by_cases he : s.data = []
    · rw [if_pos he] at h; cases h
    · rw [if_neg he] at h
      by_cases hall : s.data.all isAsciiDigit = true
      · exact isAsciiDigit_not_ws c (List.all_eq_true.mp hall c hc)
      · rw [if_neg hall] at h; cases h

/-- A parseable string is unchanged by trim, so trimming before parsing
only widens the accepted lines. -/
theorem rustTrim_of_parseable (s : String) (n : Nat)
    (h : rustParseU16 s = some n) : rustTrim s = s :=
  rustTrim_eq_self s (parseable_no_ws s n h)

/-- Claim C1 counterexample: a stop() that finds pid 42 with port 8080
recorded succeeds, yet afterwards the port is still 8080 — the source
clears only the pid, so pid and port are not both empty as claimed. -/
theorem stop_clears_port_cex :
    ({ pid := some 42, port := some 8080 } : SidecarState).pid = some 42 ∧
    (stop_bun_sidecar { pid := some 42, port := some 8080 }
      (Except.ok ())).1 = Except.ok ("Sidecar stopped (PID: 42)") ∧
    (stop_bun_sidecar { pid := some 42, port := some 8080 }
      (Except.ok ())).2.port = some 8080 := by
  refine ⟨rfl, ?_, rfl⟩
  rfl

/-- Claim C1 (amended): after any stop() that found a recorded pid and
whose kill command executed, stop() returns success, the pid is empty,
and the port is left unchanged (it is NOT cleared). -/
theorem stop_found_pid_state (st : SidecarState) (p : Nat)
    (h : st.pid = some p) :
    (stop_bun_sidecar st (Except.ok ())).2.pid = none ∧
    (stop_bun_sidecar st (Except.ok ())).2.port = st.port ∧
    (stop_bun_sidecar st (Except.ok ())).1 =
      Except.ok ("Sidecar stopped (PID: " ++ toString p ++ ")") := by
  simp [stop_bun_sidecar, h]

/-- Witness for the amended C1 at a concrete state. -/
theorem stop_found_pid_state_witness :
    (stop_bun_sidecar { pid := some 42, port := some 8080 }
      (Except.ok ())).2.pid = none ∧
    (stop_bun_sidecar { pid := some 42, port := some 8080 }
      (Except.ok ())).2.port = some 8080 := by
  obtain ⟨h1, h2, h3⟩ :=
    stop_found_pid_state { pid := some 42, port := some 8080 } 42 rfl
  exact ⟨h1, h2⟩

/-- Claim C9: when stop() finds a recorded pid but executing the kill
command itself fails, stop() returns that error and the whole state is
left unchanged — the pid is still recorded and the port untouched, so a
later stop() can act on the same pid. -/
theorem stop_kill_exec_failure (st : SidecarState) (p : Nat) (e : String)
    (h : st.pid = some p) :
    (stop_bun_sidecar st (Except.error e)).1 =
      Except.error ("Failed to kill sidecar: " ++ e) ∧
    (stop_bun_sidecar st (Except.error e)).2 = st := by
  simp [stop_bun_sidecar, h]

/-- Witness for C9 at a concrete state and kill failure. -/
theorem stop_kill_exec_failure_witness :
    (stop_bun_sidecar { pid := some 42, port := some 8080 }
      (Except.error ("exec failed"))).1 =
      Except.error ("Failed to kill sidecar: exec failed") ∧
    (stop_bun_sidecar { pid := some 42, port := some 8080 }
      (Except.error ("exec failed"))).2 =
      { pid := some 42, port := some 8080 } :=
  stop_kill_exec_failure { pid := some 42, port := some 8080 } 42
    ("exec failed") rfl

/-- Claim C6: the shutdown hook on a state with a recorded pid sends the
graceful signal (SIGTERM, 15), sleeps the 100 ms grace period, then
sends the forceful signal (SIGKILL, 9) unconditionally, and leaves both
pid and port empty.  Nothing in the sequence consults the child's
status — both kill results are discarded in the source — so the outcome
is the same whether or not the child had already exited. -/
theorem shutdown_hook_sequence (st : SidecarState) (p : Nat)
    (h : st.pid = some p) :
    (kill_sidecar_sync st).1 =
      [Act.signal p 15, Act.sleepMs 100, Act.signal p 9] ∧
    (kill_sidecar_sync st).2.pid = none ∧
    (kill_sidecar_sync st).2.port = none := by
  simp [kill_sidecar_sync, h]

/-- Witness for C6 at a concrete state. -/
theorem shutdown_hook_sequence_witness :
    (kill_sidecar_sync { pid := some 7, port := some 4567 }).1 =
      [Act.signal 7 15, Act.sleepMs 100, Act.signal 7 9] ∧
    (kill_sidecar_sync { pid := some 7, port := some 4567 }).2.pid =
      none ∧
    (kill_sidecar_sync { pid := some 7, port := some 4567 }).2.port =
      none :=
  shutdown_hook_sequence { pid := some 7, port := some 4567 } 7 rfl

/-- Follows the claim's words, not the code: scanning an action list in
order, the state clear is reached before any emit of the given event
(vacuously true when neither occurs first). -/
def clearPrecedesEmit (e : Event) : List Act → Bool
  | [] => true
  | Act.clearState :: _ => true
  | Act.emit e' :: rest =>
    if e' = e then false else clearPrecedesEmit e rest
  | _ :: rest => clearPrecedesEmit e rest

/-- Claim C2 counterexample: for the concrete termination event with
exit code 0, the relay's handler emits the child-terminated event
strictly before the action that clears pid and port, so the claimed
clear-first-then-forward order does not hold (the forward itself does
occur). -/
theorem terminated_clear_order_cex :
    clearPrecedesEmit (Event.exited (some 0))
      (relayHandlerActions (CommandEvent.terminated (some 0))) = false ∧
    Act.emit (Event.exited (some 0)) ∈
      relayHandlerActions (CommandEvent.terminated (some 0)) := by
  decide

/-- Claim C2 (amended): for every termination event the relay first
forwards the child-terminated event carrying the exit code and only
then clears pid and port, in a single critical section; after the
handler completes, both fields are empty from any starting state. -/
theorem terminated_event_handling (st : SidecarState) (c : Option Int) :
    relayHandlerActions (CommandEvent.terminated c) =
      [Act.emit (Event.exited c), Act.clearState] ∧
    (applyActs st (relayHandlerActions (CommandEvent.terminated c))).pid =
      none ∧
    (applyActs st (relayHandlerActions (CommandEvent.terminated c))).port =
      none :=
  ⟨rfl, rfl, rfl⟩

/-- Follows the claim's words, not the code: the line is the literal
prefix PORT= followed by a string that parses as an unsigned 16-bit
integer and nothing else — no whitespace trimming. -/
def claimExactPortLine (line : String) : Option Nat :=
  if startsWithPORT line then rustParseU16 (dropPORT line) else none

/-- Claim C3 counterexample: the stdout line PORT= 8080 (with a space
after the equals sign) is not of the claimed exact form, yet processing
it changes the stored port to 8080, because the code trims the
remainder before parsing; this refutes the claimed converse that any
line not of the exact form leaves the port unchanged. -/
theorem stdout_port_exactness_cex :
    claimExactPortLine ("PORT= 8080") = none ∧
    (applyActs { pid := some 1, port := none }
      (relayHandlerActions (CommandEvent.stdout ("PORT= 8080")))).port =
      some 8080 := by
  decide

/-- Claim C3 (amended): every stdout line is forwarded as exactly one
ordinary output event carrying the line text, and the pid is never
touched.  A line starting with PORT= whose remainder parses as a u16
after trimming whitespace sets the stored port to that value — in
particular every line of the claim's exact form does — and a line that
does not start with PORT=, or whose trimmed remainder does not parse,
leaves the port unchanged. -/
theorem stdout_line_handling (st : SidecarState) (line : String) :
    emittedEvents (relayHandlerActions (CommandEvent.stdout line)) =
      [Event.output line] ∧
    (applyActs st (relayHandlerActions (CommandEvent.stdout line))).pid =
      st.pid ∧
    (∀ n, startsWithPORT line = true →
      rustParseU16 (rustTrim (dropPORT line)) = some n →
      (applyActs st (relayHandlerActions (CommandEvent.stdout line))).port =
        some n) ∧
    (∀ n, claimExactPortLine line = some n →
      (applyActs st (relayHandlerActions (CommandEvent.stdout line))).port =
        some n) ∧
    ((startsWithPORT line = false ∨
      rustParseU16 (rustTrim (dropPORT line)) = none) →
      (applyActs st (relayHandlerActions (CommandEvent.stdout line))).port =
        st.port) := by
  cases hs : startsWithPORT line with
  | false =>
    refine ⟨?_, ?_, ?_, ?_, ?_⟩
    · simp [relayHandlerActions, hs, emittedEvents]
    · simp [relayHandlerActions, hs, applyActs, applyAct]
    · intro n hcon
      cases hcon
    · intro n hcon
      simp [claimExactPortLine, hs] at hcon
    · intro _
      simp [relayHandlerActions, hs, applyActs, applyAct]
  | true =>
    cases hp : rustParseU16 (rustTrim (dropPORT line)) with
    | some p =>
      refine ⟨?_, ?_, ?_, ?_, ?_⟩
      · simp [relayHandlerActions, hs, hp, emittedEvents]
      · simp [relayHandlerActions, hs, hp, applyActs, applyAct]
      · intro n _ h2
        cases h2
        simp [relayHandlerActions, hs, hp, applyActs, applyAct]
      · intro n hex
        simp only [claimExactPortLine, hs, if_true] at hex
        have ht := rustTrim_of_parseable (dropPORT line) n hex
        rw [ht] at hp
        rw [hex] at hp
        cases hp
        simp [relayHandlerActions, hs, ht, hex, applyActs, applyAct]
      · intro hcon
        rcases hcon with h | h
        · cases h
        · cases h
    | none =>
      refine ⟨?_, ?_, ?_, ?_, ?_⟩
      · simp [relayHandlerActions, hs, hp, emittedEvents]
      · simp [relayHandlerActions, hs, hp, applyActs, applyAct]
      · intro n _ h2
        cases h2
      · intro n hex
        simp only [claimExactPortLine, hs, if_true] at hex
        have ht := rustTrim_of_parseable (dropPORT line) n hex
        rw [ht] at hp
        rw [hex] at hp
        cases hp
      · intro _
        simp [relayHandlerActions, hs, hp, applyActs, applyAct]

/-- A successful ensureDir step produced no action (directory present)
or exactly one creation action for that path. -/
theorem ensureDir_ok (env : DirEnv) (d lbl : String) (l : List Act)
    (h : ensureDir env d lbl = Except.ok l) :
    l = [] ∨ l = [Act.createDir d] := by
  unfold ensureDir at h
  split at h
  · cases h
    exact Or.inl rfl
  · split at h
    · cases h
      exact Or.inr rfl
    · cases h

/-- A successful ensureDir step accounts for the directory: it was
present, or the returned actions created it. -/
theorem ensureDir_ok_ensured (env : DirEnv) (d lbl : String)
    (l : List Act) (h : ensureDir env d lbl = Except.ok l) :
    env.present d = true ∨ Act.createDir d ∈ l := by
  unfold ensureDir at h
  split at h
  · exact Or.inl (by assumption)
  · split at h
    · cases h
      exact Or.inr (by simp)
    · cases h

/-- The error message of a failed ensureDir step names its label. -/
theorem ensureDir_error (env : DirEnv) (d lbl e : String)
    (h : ensureDir env d lbl = Except.error e) :
    e = "Failed to create " ++ lbl ++ " directory" := by
  unfold ensureDir at h
  split at h
  · cases h
  · split at h
    · cases h
    · cases h
      rfl

/-- A directory that is absent and cannot be created. -/
def dirFails (env : DirEnv) (d : String) : Prop :=
  env.present d = false ∧ env.createOk d = false

/-- A directory accounted for by a launch trace: already present, or
created by the trace. -/
def dirEnsured (env : DirEnv) (tr : List Act) (d : String) : Prop :=
  env.present d = true ∨ Act.createDir d ∈ tr

/-- ensureDir on a directory that is absent and uncreatable fails with
its labelled error. -/
theorem ensureDir_fail (env : DirEnv) (d lbl : String)
    (h : dirFails env d) :
    ensureDir env d lbl =
      Except.error ("Failed to create " ++ lbl ++ " directory") := by
  unfold ensureDir
  rw [if_neg (by simp [h.1]), if_neg (by simp [h.2])]

/-- Normal form of a successful launch: some createDir actions for the
missing directories, then the spawn, the pid write, and the relay
spawn; the resulting state is the input state with the pid overwritten
and nothing else changed. -/
theorem start_ok_shape (home : String) (dd : Option String) (env : DirEnv)
    (newPid : Nat) (st st' : SidecarState)
    (h : (start_bun_sidecar_internal home dd env (Except.ok newPid) st).2 =
      Except.ok st') :
    ∃ ds,
      (start_bun_sidecar_internal home dd env (Except.ok newPid) st).1 =
        ds ++ [Act.spawnChild newPid, Act.writePid newPid, Act.spawnRelay] ∧
      st' = { st with pid := some newPid } ∧
      (∀ a ∈ ds, ∃ d, a = Act.createDir d) := by
  unfold start_bun_sidecar_internal at h ⊢
  cases h1 : ensureDir env (resolveEffectiveDataDir home dd) ("data") with
  | error e =>
    simp only [h1] at h
    cases h
  | ok s1 =>
    simp only [h1] at h ⊢
    cases h2 : ensureDir env
        (joinPath (resolveEffectiveDataDir home dd) ("entities"))
        ("entities") with
    | error e =>
      simp only [h2] at h
      cases h
    | ok s2 =>
      simp only [h2] at h ⊢
      cases h3 : ensureDir env
          (joinPath (resolveEffectiveDataDir home dd) ("months"))
          ("months") with
      | error e =>
        simp only [h3] at h
        cases h
      | ok s3 =>
        simp only [h3, Except.ok.injEq] at h ⊢
        refine ⟨s1 ++ s2 ++ s3, by simp, h.symm, ?_⟩
        intro a ha
        have e1 := ensureDir_ok env _ _ s1 h1
        have e2 := ensureDir_ok env _ _ s2 h2
        have e3 := ensureDir_ok env _ _ s3 h3
        rcases List.mem_append.mp ha with hb | hb
        · rcases List.mem_append.mp hb with hc | hc
          · rcases e1 with rfl | rfl
            · cases hc
            · exact ⟨_, by simpa using hc⟩
          · rcases e2 with rfl | rfl
            · cases hc
            · exact ⟨_, by simpa using hc⟩
        · rcases e3 with rfl | rfl
          · cases hb
          · exact ⟨_, by simpa using hb⟩

/-- On any successful launch, the effective data directory and its two
fixed subdirectories are each accounted for: already present, or
created by the launch trace (before the spawn, which the trace order in
start_ok_shape shows). -/
theorem start_ok_dirs (home : String) (dd : Option String) (env : DirEnv)
    (spawnRes : Except String Nat) (st st' : SidecarState)
    (h : (start_bun_sidecar_internal home dd env spawnRes st).2 =
      Except.ok st') :
    dirEnsured env (start_bun_sidecar_internal home dd env spawnRes st).1
      (resolveEffectiveDataDir home dd) ∧
    dirEnsured env (start_bun_sidecar_internal home dd env spawnRes st).1
      (joinPath (resolveEffectiveDataDir home dd) ("entities")) ∧
    dirEnsured env (start_bun_sidecar_internal home dd env spawnRes st).1
      (joinPath (resolveEffectiveDataDir home dd) ("months")) := by
  unfold start_bun_sidecar_internal at h ⊢
  cases h1 : ensureDir env (resolveEffectiveDataDir home dd) ("data") with
  | error e =>
    simp only [h1] at h
    cases h
  | ok s1 =>
    simp only [h1] at h ⊢
    cases h2 : ensureDir env
        (joinPath (resolveEffectiveDataDir home dd) ("entities"))
        ("entities") with
    | error e =>
      simp only [h2] at h
      cases h
    | ok s2 =>
      simp only [h2] at h ⊢
      cases h3 : ensureDir env
          (joinPath (resolveEffectiveDataDir home dd) ("months"))
          ("months") with
      | error e =>
        simp only [h3] at h
        cases h
      | ok s3 =>
        simp only [h3] at h ⊢
        cases spawnRes with
        | error e => simp at h
        | ok newPid =>
          refine ⟨?_, ?_, ?_⟩
          · rcases ensureDir_ok_ensured env _ _ s1 h1 with hp | hm
            · exact Or.inl hp
            · exact Or.inr (by simp [hm])
          · rcases ensureDir_ok_ensured env _ _ s2 h2 with hp | hm
            · exact Or.inl hp
            · exact Or.inr (by simp [hm])
          · rcases ensureDir_ok_ensured env _ _ s3 h3 with hp | hm
            · exact Or.inl hp
            · exact Or.inr (by simp [hm])

/-- If the effective data directory or either subdirectory is absent
and cannot be created, the launch returns one of the three
directory-creation errors and its trace never spawns a child. -/
theorem start_dir_fail (home : String) (dd : Option String) (env : DirEnv)
    (spawnRes : Except String Nat) (st : SidecarState)
    (hf : dirFails env (resolveEffectiveDataDir home dd) ∨
      dirFails env
        (joinPath (resolveEffectiveDataDir home dd) ("entities")) ∨
      dirFails env
        (joinPath (resolveEffectiveDataDir home dd) ("months"))) :
    (∃ e, (start_bun_sidecar_internal home dd env spawnRes st).2 =
      Except.error e ∧
      (e = "Failed to create data directory" ∨
       e = "Failed to create entities directory" ∨
       e = "Failed to create months directory")) ∧
    ∀ q, Act.spawnChild q ∉
      (start_bun_sidecar_internal home dd env spawnRes st).1 := by
  unfold start_bun_sidecar_internal
  cases h1 : ensureDir env (resolveEffectiveDataDir home dd) ("data") with
  | error e =>
    have he := ensureDir_error env _ _ e h1
    refine ⟨⟨e, by simp [h1], Or.inl (by rw [he]; rfl)⟩, by simp [h1]⟩
  | ok s1 =>
    have e1 := ensureDir_ok env _ _ s1 h1
    cases h2 : ensureDir env
        (joinPath (resolveEffectiveDataDir home dd) ("entities"))
        ("entities") with
    | error e =>
      have he := ensureDir_error env _ _ e h2
      refine ⟨⟨e, by simp [h1, h2], Or.inr (Or.inl (by rw [he]; rfl))⟩, ?_⟩
      intro q hq
      simp [h1, h2] at hq
      rcases e1 with rfl | rfl
      · cases hq
      · simp at hq
    | ok s2 =>
      have e2 := ensureDir_ok env _ _ s2 h2
      cases h3 : ensureDir env
          (joinPath (resolveEffectiveDataDir home dd) ("months"))
          ("months") with
      | error e =>
        have he := ensureDir_error env _ _ e h3
        refine ⟨⟨e, by simp [h1, h2, h3], Or.inr (Or.inr (by rw [he]; rfl))⟩, ?_⟩
        intro q hq
        simp [h1, h2, h3] at hq
        rcases e1 with rfl | rfl <;> rcases e2 with rfl | rfl <;>
          simp at hq
      | ok s3 =>
        rcases hf with hfa | hfb | hfc
        · rw [ensureDir_fail env _ ("data") hfa] at h1
          cases h1
        · rw [ensureDir_fail env _ ("entities") hfb] at h2
          cases h2
        · rw [ensureDir_fail env _ ("months") hfc] at h3
          cases h3

/-- Claim C7: when the launch request's data_directory is absent or
empty the effective data directory is the fixed default under the home
directory; on a successful launch that directory and its entities and
months subdirectories were present or were created by the launch; and
if any of the three cannot be created, the launch returns the
corresponding directory-creation error and no child is spawned. -/
theorem launch_default_dir_and_subdirs (home : String)
    (dd : Option String) (env : DirEnv) (spawnRes : Except String Nat)
    (st : SidecarState) (hdd : dd = none ∨ dd = some "") :
    resolveEffectiveDataDir home dd = defaultDataDir home ∧
    (∀ st', (start_bun_sidecar_internal home dd env spawnRes st).2 =
        Except.ok st' →
      dirEnsured env
        (start_bun_sidecar_internal home dd env spawnRes st).1
        (defaultDataDir home) ∧
      dirEnsured env
        (start_bun_sidecar_internal home dd env spawnRes st).1
        (joinPath (defaultDataDir home) ("entities")) ∧
      dirEnsured env
        (start_bun_sidecar_internal home dd env spawnRes st).1
        (joinPath (defaultDataDir home) ("months"))) ∧
    ((dirFails env (defaultDataDir home) ∨
      dirFails env (joinPath (defaultDataDir home) ("entities")) ∨
      dirFails env (joinPath (defaultDataDir home) ("months"))) →
      (∃ e, (start_bun_sidecar_internal home dd env spawnRes st).2 =
        Except.error e ∧
        (e = "Failed to create data directory" ∨
         e = "Failed to create entities directory" ∨
         e = "Failed to create months directory")) ∧
      ∀ q, Act.spawnChild q ∉
        (start_bun_sidecar_internal home dd env spawnRes st).1) := by
  have heff : resolveEffectiveDataDir home dd = defaultDataDir home := by
    rcases hdd with rfl | rfl <;> simp [resolveEffectiveDataDir]
  refine ⟨heff, ?_, ?_⟩
  · intro st' h
    have hd := start_ok_dirs home dd env spawnRes st st' h
    rw [heff] at hd
    exact hd
  · intro hfail
    exact start_dir_fail home dd env spawnRes st (by rw [heff]; exact hfail)

/-- Whether an action forwards an event to a listener. -/
def isForward : Act → Bool
  | Act.emit _ => true
  | _ => false

/-- Whether an action clears the recorded pid (alone or with the
port). -/
def isClear : Act → Bool
  | Act.clearState => true
  | Act.clearPid => true
  | _ => false

/-- Every relay action is a port write, an event emission, or the
termination clear — relay code never writes the pid. -/
theorem relayActs_mem (events : List CommandEvent) (a : Act)
    (ha : a ∈ relayActs events) :
    (∃ p, a = Act.setPort p) ∨ (∃ e, a = Act.emit e) ∨
      a = Act.clearState := by
  induction events with
  | nil => cases ha
  | cons e t ih =>
    simp only [relayActs] at ha
    rcases List.mem_append.mp ha with hb | hb
    · cases e with
      | stdout line =>
        simp only [relayHandlerActions] at hb
        rcases List.mem_append.mp hb with hc | hc
        · split at hc
          · split at hc
            · simp at hc
              exact Or.inl ⟨_, hc⟩
            · cases hc
          · cases hc
        · simp at hc
          exact Or.inr (Or.inl ⟨_, hc⟩)
      | stderr line =>
        simp only [relayHandlerActions] at hb
        simp at hb
        exact Or.inr (Or.inl ⟨_, hb⟩)
      | terminated c =>
        simp only [relayHandlerActions] at hb
        simp at hb
        rcases hb with rfl | rfl
        · exact Or.inr (Or.inl ⟨_, rfl⟩)
        · exact Or.inr (Or.inr rfl)
      | other => cases hb
    · exact ih hb

/-- The recorded pid survives any run of relay-style actions that
contains no clearing action. -/
theorem pid_preserved_by_relay (mid : List Act) :
    ∀ st p, st.pid = some p →
      (∀ a ∈ mid, isClear a = false) →
      (∀ a ∈ mid, a = Act.spawnRelay ∨ (∃ q, a = Act.setPort q) ∨
        (∃ e, a = Act.emit e) ∨ a = Act.clearState) →
      (applyActs st mid).pid = some p := by
  induction mid with
  | nil => intro st p h _ _; exact h
  | cons a t ih =>
    intro st p h hclear hshape
    have ha := hshape a (List.mem_cons_self a t)
    have hc := hclear a (List.mem_cons_self a t)
    have hstep : (applyAct st a).pid = some p := by
      rcases ha with rfl | ⟨q, rfl⟩ | ⟨e, rfl⟩ | rfl
      · simpa [applyAct] using h
      · simpa [applyAct] using h
      · simpa [applyAct] using h
      · simp [isClear] at hc
    exact ih (applyAct st a) p hstep
      (fun x hx => hclear x (List.mem_cons_of_mem a hx))
      (fun x hx => hshape x (List.mem_cons_of_mem a hx))

/-- Claim C8: on a successful launch the pid write happens before the
relay task starts, so in the combined trace every relay event-forward
is behind the pid write: the trace splits as pre ++ writePid ::
spawnRelay :: relay actions with no forward in pre; the state at the
moment start() returns (after its own trace) has the new pid recorded;
and the pid stays recorded through any clear-free prefix of what runs
after the write. -/
theorem pid_recorded_before_relay (home : String) (dd : Option String)
    (env : DirEnv) (newPid : Nat) (st st' : SidecarState)
    (events : List CommandEvent)
    (h : (start_bun_sidecar_internal home dd env (Except.ok newPid) st).2 =
      Except.ok st') :
    ∃ pre,
      (start_bun_sidecar_internal home dd env (Except.ok newPid) st).1 ++
          relayActs events =
        pre ++ Act.writePid newPid :: Act.spawnRelay :: relayActs events ∧
      (∀ a ∈ pre, isForward a = false) ∧
      (applyActs st
        (start_bun_sidecar_internal home dd env
          (Except.ok newPid) st).1).pid = some newPid ∧
      (∀ mid, List.IsPrefix mid (Act.spawnRelay :: relayActs events) →
        (∀ a ∈ mid, isClear a = false) →
        (applyActs st (pre ++ Act.writePid newPid :: mid)).pid =
          some newPid) := by
  obtain ⟨ds, htr, hst, hds⟩ := start_ok_shape home dd env newPid st st' h
  refine ⟨ds ++ [Act.spawnChild newPid], ?_, ?_, ?_, ?_⟩
  · rw [htr]
    simp
  · intro a ha
    rcases List.mem_append.mp ha with hb | hb
    · obtain ⟨d, rfl⟩ := hds a hb
      rfl
    · simp at hb
      subst hb
      rfl
  · rw [htr]
    simp [applyActs, List.foldl_append, applyAct]
  · intro mid hpre hclear
    have hshape : ∀ a ∈ mid, a = Act.spawnRelay ∨
        (∃ q, a = Act.setPort q) ∨ (∃ e, a = Act.emit e) ∨
        a = Act.clearState := by
      intro a ha
      rcases List.mem_cons.mp (hpre.subset ha) with rfl | hmem
      · exact Or.inl rfl
      · rcases relayActs_mem events a hmem with h1 | h1 | h1
        · exact Or.inr (Or.inl h1)
        · exact Or.inr (Or.inr (Or.inl h1))
        · exact Or.inr (Or.inr (Or.inr h1))
    have hsplit : applyActs st
        ((ds ++ [Act.spawnChild newPid]) ++ Act.writePid newPid :: mid) =
        applyActs (applyAct (applyActs st (ds ++ [Act.spawnChild newPid]))
          (Act.writePid newPid)) mid := by
      simp [applyActs, List.foldl_append]
    rw [hsplit]
    exact pid_preserved_by_relay mid _ newPid (by simp [applyAct]) hclear
      hshape

/-- Claim C10: start() performs no running-child check: from a state
with an old pid recorded, a successful start spawns a new child,
overwrites the recorded pid with the new child's pid (leaving the old
child untracked), and its trace contains no termination signal at all,
in particular none for the old pid. -/
theorem start_overwrites_running_pid (home : String) (dd : Option String)
    (env : DirEnv) (oldPid newPid : Nat) (st st' : SidecarState)
    (_hold : st.pid = some oldPid)
    (h : (start_bun_sidecar_internal home dd env (Except.ok newPid) st).2 =
      Except.ok st') :
    st'.pid = some newPid ∧
    Act.spawnChild newPid ∈
      (start_bun_sidecar_internal home dd env (Except.ok newPid) st).1 ∧
    ∀ a ∈ (start_bun_sidecar_internal home dd env (Except.ok newPid) st).1,
      ∀ q s, a ≠ Act.signal q s := by
  obtain ⟨ds, htr, hst, hds⟩ := start_ok_shape home dd env newPid st st' h
  refine ⟨by rw [hst], by rw [htr]; simp, ?_⟩
  intro a ha q s
  rw [htr] at ha
  rcases List.mem_append.mp ha with hb | hb
  · obtain ⟨d, rfl⟩ := hds a hb
    simp
  · simp at hb
    rcases hb with rfl | rfl | rfl <;> simp

/-- Filesystem in which every directory already exists. -/
def envAllPresent : DirEnv :=
  { present := fun _ => true, createOk := fun _ => true }

/-- Filesystem in which no directory exists and none can be created. -/
def envAllFail : DirEnv :=
  { present := fun _ => false, createOk := fun _ => false }

/-- Witness for C7 at concrete inputs: an empty data_directory resolves
to the default path, and with an uncreatable filesystem the launch
fails with a directory-creation error and never spawns. -/
theorem launch_default_dir_and_subdirs_witness :
    resolveEffectiveDataDir ("/home/u") (some "") =
      "/home/u/Documents/BudgetForFun" ∧
    (∃ e, (start_bun_sidecar_internal ("/home/u") (some "") envAllFail
        (Except.ok 7) { pid := none, port := none }).2 = Except.error e ∧
      (e = "Failed to create data directory" ∨
       e = "Failed to create entities directory" ∨
       e = "Failed to create months directory")) ∧
    ∀ q, Act.spawnChild q ∉
      (start_bun_sidecar_internal ("/home/u") (some "") envAllFail
        (Except.ok 7) { pid := none, port := none }).1 := by
  obtain ⟨h1, h2, h3⟩ := launch_default_dir_and_subdirs ("/home/u")
    (some "") envAllFail (Except.ok 7) { pid := none, port := none }
    (Or.inr rfl)
  have hf := h3 (Or.inl ⟨rfl, rfl⟩)
  exact ⟨by rw [h1]; rfl, hf.1, hf.2⟩

/-- Witness for C8 at concrete inputs. -/
theorem pid_recorded_before_relay_witness :
    ∃ pre,
      (start_bun_sidecar_internal ("/home/u") none envAllPresent
          (Except.ok 7) { pid := none, port := none }).1 ++
          relayActs [CommandEvent.stdout ("PORT=3000")] =
        pre ++ Act.writePid 7 :: Act.spawnRelay ::
          relayActs [CommandEvent.stdout ("PORT=3000")] ∧
      (∀ a ∈ pre, isForward a = false) ∧
      (applyActs { pid := none, port := none }
        (start_bun_sidecar_internal ("/home/u") none envAllPresent
          (Except.ok 7) { pid := none, port := none }).1).pid = some 7 ∧
      (∀ mid, List.IsPrefix mid (Act.spawnRelay ::
          relayActs [CommandEvent.stdout ("PORT=3000")]) →
        (∀ a ∈ mid, isClear a = false) →
        (applyActs { pid := none, port := none }
          (pre ++ Act.writePid 7 :: mid)).pid = some 7) :=
  pid_recorded_before_relay ("/home/u") none envAllPresent 7
    { pid := none, port := none } { pid := some 7, port := none }
    [CommandEvent.stdout ("PORT=3000")] rfl

/-- Witness for C10 at concrete inputs: starting over a state that still
records pid 3 succeeds, records pid 7, and signals nobody. -/
theorem start_overwrites_running_pid_witness :
    ({ pid := some 7, port := some 1234 } : SidecarState).pid = some 7 ∧
    Act.spawnChild 7 ∈
      (start_bun_sidecar_internal ("/home/u") none envAllPresent
        (Except.ok 7) { pid := some 3, port := some 1234 }).1 ∧
    ∀ a ∈ (start_bun_sidecar_internal ("/home/u") none envAllPresent
        (Except.ok 7) { pid := some 3, port := some 1234 }).1,
      ∀ q s, a ≠ Act.signal q s :=
  start_overwrites_running_pid ("/home/u") none envAllPresent 3 7
    { pid := some 3, port := some 1234 }
    { pid := some 7, port := some 1234 } rfl rfl

/-- Witness for the amended C3 at a concrete line and state. -/
theorem stdout_line_handling_witness :
    (applyActs { pid := some 1, port := none }
      (relayHandlerActions (CommandEvent.stdout ("PORT=3000")))).port =
      some 3000 ∧
    emittedEvents (relayHandlerActions
      (CommandEvent.stdout ("PORT=3000"))) =
      [Event.output ("PORT=3000")] := by
  obtain ⟨h1, h2, h3, h4, h5⟩ :=
    stdout_line_handling { pid := some 1, port := none } ("PORT=3000")
  exact ⟨h3 3000 (by decide) (by decide), h1⟩
